import Mathlib

/-!
Shallow embedding of `src/Host/Source/LibOpenBLT/port/windows/critutil.c`.

The C module keeps three pieces of static state:
  * `criticalSectionInitialized : bool` (zero-initialized to `false`),
  * `criticalSectionNesting : uint32_t` (static storage, zero-initialized),
  * `criticalSection : CRITICAL_SECTION` (the Windows OS lock object).

The Windows OS lock is modelled as an instrumentable fake lock: a
`lockConstructed` flag, a recursion count `lockHeld` (number of outstanding
acquisitions on the current lock object), and four event counters recording
how often each of the four OS primitives was invoked.  `assert` is debug-only
(release builds compile it away), so it has no effect on the modelled state;
every guard that the C code places after an assert is translated faithfully.

The `uint32_t` nesting counter is modelled as a `Nat` reduced modulo `2 ^ 32`
exactly where the C code can overflow (the `criticalSectionNesting++` in
`UtilCriticalSectionEnter`); the decrement in `UtilCriticalSectionExit` is
guarded by `criticalSectionNesting > 0`, so it never wraps.
-/

/-- Modulus of the `uint32_t` nesting counter. -/
def UINT32_MOD : Nat := 2 ^ 32

/-- The module state: the three static variables of `critutil.c` plus the
instrumented model of the Windows `CRITICAL_SECTION` object. -/
@[ext]
structure CritState where
  criticalSectionInitialized : Bool
  criticalSectionNesting : Nat
  lockConstructed : Bool
  lockHeld : Nat
  acquireCount : Nat
  releaseCount : Nat
  constructCount : Nat
  destroyCount : Nat
deriving DecidableEq, Repr

/-- Windows `InitializeCriticalSection`: constructs a fresh, unheld lock
object (re-initializing the object resets its recursion count). -/
def InitializeCriticalSection (s : CritState) : CritState :=
  { s with lockConstructed := true, lockHeld := 0,
           constructCount := s.constructCount + 1 }

/-- Windows `DeleteCriticalSection`: destroys the lock object.  The stale
`lockHeld` count of a destroyed object is left in place (the memory is
garbage once the object is gone); only `lockConstructed` is cleared. -/
def DeleteCriticalSection (s : CritState) : CritState :=
  { s with lockConstructed := false, destroyCount := s.destroyCount + 1 }

/-- Windows `EnterCriticalSection`: acquires the lock (recursively), adding
one outstanding acquisition. -/
def EnterCriticalSection (s : CritState) : CritState :=
  { s with lockHeld := s.lockHeld + 1, acquireCount := s.acquireCount + 1 }

/-- Windows `LeaveCriticalSection`: releases one outstanding acquisition. -/
def LeaveCriticalSection (s : CritState) : CritState :=
  { s with lockHeld := s.lockHeld - 1, releaseCount := s.releaseCount + 1 }

/-- Function `UtilCriticalSectionInit` (critutil.c lines 58-70): only acts when not
yet initialized; constructs the OS lock, resets the nesting counter, sets
the initialized flag. -/
def UtilCriticalSectionInit (s : CritState) : CritState :=
  if s.criticalSectionInitialized = false then
    let s1 := InitializeCriticalSection s
    let s2 := { s1 with criticalSectionNesting := 0 }
    { s2 with criticalSectionInitialized := true }
  else s

/-- Function `UtilCriticalSectionTerminate` (critutil.c lines 80-92): only acts when
initialized; clears the flag, resets the nesting counter, destroys the OS
lock.  It never calls `LeaveCriticalSection`. -/
def UtilCriticalSectionTerminate (s : CritState) : CritState :=
  if s.criticalSectionInitialized = true then
    let s1 := { s with criticalSectionInitialized := false }
    let s2 := { s1 with criticalSectionNesting := 0 }
    DeleteCriticalSection s2
  else s

/-- Function `UtilCriticalSectionEnter` (critutil.c lines 101-117): after the
debug-only assert, only acts when initialized; acquires the OS lock when
the nesting counter is 0, then increments the `uint32_t` nesting counter
(modulo `2 ^ 32`). -/
def UtilCriticalSectionEnter (s : CritState) : CritState :=
  if s.criticalSectionInitialized = true then
    let s1 := if s.criticalSectionNesting = 0 then EnterCriticalSection s else s
    { s1 with
      criticalSectionNesting := (s1.criticalSectionNesting + 1) % UINT32_MOD }
  else s

/-- Function `UtilCriticalSectionExit` (critutil.c lines 125-147): after the
debug-only asserts, only acts when initialized and the nesting counter is
positive; decrements the counter and releases the OS lock when the counter
reaches 0. -/
def UtilCriticalSectionExit (s : CritState) : CritState :=
  if s.criticalSectionInitialized = true then
    if s.criticalSectionNesting > 0 then
      let s1 := { s with criticalSectionNesting := s.criticalSectionNesting - 1 }
      if s1.criticalSectionNesting = 0 then LeaveCriticalSection s1 else s1
    else s
  else s

/-- The four public operations of the module. -/
inductive Call where
  | init
  | term
  | enter
  | exit
deriving DecidableEq, Repr

/-- Single-threaded step relation: one public call acting on the state. -/
def step : Call → CritState → CritState
  | Call.init, s => UtilCriticalSectionInit s
  | Call.term, s => UtilCriticalSectionTerminate s
  | Call.enter, s => UtilCriticalSectionEnter s
  | Call.exit, s => UtilCriticalSectionExit s

/-- Execute a sequence of calls from left to right. -/
def execList : List Call → CritState → CritState
  | [], s => s
  | c :: l, s => execList l (step c s)

/-- The initial state of the module: C static storage is zero-initialized,
and no OS primitive has been invoked yet. -/
def initialState : CritState :=
  { criticalSectionInitialized := false, criticalSectionNesting := 0,
    lockConstructed := false, lockHeld := 0, acquireCount := 0,
    releaseCount := 0, constructCount := 0, destroyCount := 0 }

/-- A state is reachable when some call sequence produces it from the
initial state. -/
def Reachable (s : CritState) : Prop :=
  ∃ l : List Call, execList l initialState = s

/-- The state immediately after one `UtilCriticalSectionInit` from the
initial state. -/
def readyState : CritState := step Call.init initialState

/-- The state immediately after `UtilCriticalSectionInit` followed by one
`UtilCriticalSectionEnter`: nesting 1, lock held once. -/
def heldState : CritState := step Call.enter readyState

/-- The unconditional part of the reachable-state invariant: the
initialized flag tracks lock construction, an uninitialized module has
nesting 0, and positive nesting means at least one outstanding
acquisition on the lock object. -/
def CritInv (s : CritState) : Prop :=
  s.criticalSectionInitialized = s.lockConstructed ∧
  (s.criticalSectionInitialized = false → s.criticalSectionNesting = 0) ∧
  (0 < s.criticalSectionNesting → 1 ≤ s.lockHeld)

/-- The strong invariant, valid as long as the nesting counter has never
wrapped: a constructed lock object carries exactly one outstanding
acquisition when nesting is positive and none when nesting is 0.  (A
destroyed lock object may carry a stale count; it is reset when the
object is constructed again.) -/
def FullInv (s : CritState) : Prop :=
  s.criticalSectionInitialized = s.lockConstructed ∧
  (s.criticalSectionInitialized = false → s.criticalSectionNesting = 0) ∧
  (s.lockConstructed = true →
    s.lockHeld = if s.criticalSectionNesting = 0 then 0 else 1)

/-- A call sequence never wraps the `uint32_t` nesting counter when every
Enter in it happens at a nesting value below `2 ^ 32 - 1`. -/
def noWrapFrom : CritState → List Call → Bool
  | _, [] => true
  | s, c :: l =>
      (c != Call.enter ||
        decide (s.criticalSectionNesting + 1 < UINT32_MOD)) &&
      noWrapFrom (step c s) l

/-- A reachable state that violates the claimed "exactly one outstanding
acquisition" invariant: reached by Init followed by `2 ^ 32 + 1` Enter
calls, after which nesting is 1 but the lock carries two outstanding
acquisitions. -/
def badC3State : CritState :=
  { criticalSectionInitialized := true, criticalSectionNesting := 1,
    lockConstructed := true, lockHeld := 2, acquireCount := 2,
    releaseCount := 0, constructCount := 1, destroyCount := 0 }

theorem execList_append (l1 l2 : List Call) (s : CritState) :
    execList (l1 ++ l2) s = execList l2 (execList l1 s) := by
  induction l1 generalizing s with
  | nil => rfl
  | cons c l ih => simp [execList, ih]

theorem execList_cons (c : Call) (l : List Call) (s : CritState) :
    execList (c :: l) s = execList l (step c s) := rfl

theorem uint32_mod_pos : 0 < UINT32_MOD := by decide

/-! Behaviour of the four operations on the various classes of states. -/

theorem enter_not_ready (s : CritState)
    (h : s.criticalSectionInitialized = false) :
    UtilCriticalSectionEnter s = s := by
  simp [UtilCriticalSectionEnter, h]

theorem exit_not_ready (s : CritState)
    (h : s.criticalSectionInitialized = false) :
    UtilCriticalSectionExit s = s := by
  simp [UtilCriticalSectionExit, h]

theorem init_ready (s : CritState)
    (h : s.criticalSectionInitialized = true) :
    UtilCriticalSectionInit s = s := by
  simp [UtilCriticalSectionInit, h]

theorem term_not_ready (s : CritState)
    (h : s.criticalSectionInitialized = false) :
    UtilCriticalSectionTerminate s = s := by
  simp [UtilCriticalSectionTerminate, h]

theorem init_not_ready (s : CritState)
    (h : s.criticalSectionInitialized = false) :
    UtilCriticalSectionInit s =
      { s with criticalSectionInitialized := true, criticalSectionNesting := 0,
               lockConstructed := true, lockHeld := 0,
               constructCount := s.constructCount + 1 } := by
  simp [UtilCriticalSectionInit, InitializeCriticalSection, h]

theorem term_ready (s : CritState)
    (h : s.criticalSectionInitialized = true) :
    UtilCriticalSectionTerminate s =
      { s with criticalSectionInitialized := false, criticalSectionNesting := 0,
               lockConstructed := false,
               destroyCount := s.destroyCount + 1 } := by
  simp [UtilCriticalSectionTerminate, DeleteCriticalSection, h]

theorem enter_zero (s : CritState)
    (h : s.criticalSectionInitialized = true)
    (h0 : s.criticalSectionNesting = 0) :
    UtilCriticalSectionEnter s =
      { s with criticalSectionNesting := 1, lockHeld := s.lockHeld + 1,
               acquireCount := s.acquireCount + 1 } := by
  have h1 : (1 : Nat) % UINT32_MOD = 1 := by decide
  simp [UtilCriticalSectionEnter, EnterCriticalSection, h, h0, h1]

theorem enter_pos (s : CritState)
    (h : s.criticalSectionInitialized = true)
    (h0 : 0 < s.criticalSectionNesting) :
    UtilCriticalSectionEnter s =
      { s with
        criticalSectionNesting :=
          (s.criticalSectionNesting + 1) % UINT32_MOD } := by
  simp [UtilCriticalSectionEnter, h, Nat.pos_iff_ne_zero.mp h0]

theorem exit_zero (s : CritState)
    (h : s.criticalSectionInitialized = true)
    (h0 : s.criticalSectionNesting = 0) :
    UtilCriticalSectionExit s = s := by
  simp [UtilCriticalSectionExit, h, h0]

theorem exit_one (s : CritState)
    (h : s.criticalSectionInitialized = true)
    (h0 : s.criticalSectionNesting = 1) :
    UtilCriticalSectionExit s =
      { s with criticalSectionNesting := 0, lockHeld := s.lockHeld - 1,
               releaseCount := s.releaseCount + 1 } := by
  simp [UtilCriticalSectionExit, LeaveCriticalSection, h, h0]

theorem exit_many (s : CritState)
    (h : s.criticalSectionInitialized = true)
    (h0 : 1 < s.criticalSectionNesting) :
    UtilCriticalSectionExit s =
      { s with criticalSectionNesting := s.criticalSectionNesting - 1 } := by
  have hpos : s.criticalSectionNesting > 0 := by omega
  have hne : ¬ s.criticalSectionNesting - 1 = 0 := by omega
  simp [UtilCriticalSectionExit, h, hpos, hne]

/-! Iteration lemmas for repeated calls. -/

theorem enters_add (k : Nat) : ∀ s : CritState,
    s.criticalSectionInitialized = true →
    1 ≤ s.criticalSectionNesting →
    s.criticalSectionNesting + k < UINT32_MOD →
    execList (List.replicate k Call.enter) s =
      { s with criticalSectionNesting := s.criticalSectionNesting + k } := by
  induction k with
  | zero => intro s h h1 hk; simp [execList]
  | succ k ih =>
      intro s h h1 hk
      have hm : (s.criticalSectionNesting + 1) % UINT32_MOD =
          s.criticalSectionNesting + 1 := Nat.mod_eq_of_lt (by omega)
      have hs : step Call.enter s =
          { s with criticalSectionNesting := s.criticalSectionNesting + 1 } := by
        rw [step, enter_pos s h (by omega), hm]
      rw [List.replicate_succ, execList_cons, hs,
        ih _ (by simp [h]) (by simp) (by simp; omega)]
      simp
      omega

theorem enters_mod (k : Nat) : ∀ s : CritState,
    s.criticalSectionInitialized = true →
    s.criticalSectionNesting < UINT32_MOD →
    (execList (List.replicate k Call.enter) s).criticalSectionNesting =
      (s.criticalSectionNesting + k) % UINT32_MOD := by
  induction k with
  | zero => intro s h hlt; simp [execList, Nat.mod_eq_of_lt hlt]
  | succ k ih =>
      intro s h hlt
      rw [List.replicate_succ, execList_cons]
      have hinit : (step Call.enter s).criticalSectionInitialized = true := by
        rw [step]
        by_cases h0 : s.criticalSectionNesting = 0
        · rw [enter_zero s h h0]; exact h
        · rw [enter_pos s h (by omega)]; exact h
      have hnest : (step Call.enter s).criticalSectionNesting =
          (s.criticalSectionNesting + 1) % UINT32_MOD := by
        rw [step]
        by_cases h0 : s.criticalSectionNesting = 0
        · rw [enter_zero s h h0]; simp [h0]; decide
        · rw [enter_pos s h (by omega)]
      rw [ih _ hinit (by rw [hnest]; exact Nat.mod_lt _ uint32_mod_pos), hnest,
        Nat.mod_add_mod]
      congr 1
      omega

theorem exits_zero (k : Nat) : ∀ s : CritState,
    s.criticalSectionNesting = 0 →
    execList (List.replicate k Call.exit) s = s := by
  induction k with
  | zero => intro s h0; simp [execList]
  | succ k ih =>
      intro s h0
      have hs : step Call.exit s = s := by
        rw [step]
        by_cases h : s.criticalSectionInitialized = true
        · exact exit_zero s h h0
        · exact exit_not_ready s (by simp at h; exact h)
      rw [List.replicate_succ, execList_cons, hs, ih s h0]

theorem exits_sub (k : Nat) : ∀ s : CritState,
    s.criticalSectionInitialized = true →
    k < s.criticalSectionNesting →
    execList (List.replicate k Call.exit) s =
      { s with criticalSectionNesting := s.criticalSectionNesting - k } := by
  induction k with
  | zero => intro s h hk; simp [execList]
  | succ k ih =>
      intro s h hk
      have hs : step Call.exit s =
          { s with criticalSectionNesting := s.criticalSectionNesting - 1 } := by
        rw [step, exit_many s h (by omega)]
      rw [List.replicate_succ, execList_cons, hs,
        ih _ (by simp [h]) (by simp; omega)]
      simp
      omega

theorem inits_ready (k : Nat) : ∀ s : CritState,
    s.criticalSectionInitialized = true →
    execList (List.replicate k Call.init) s = s := by
  induction k with
  | zero => intro s h; simp [execList]
  | succ k ih =>
      intro s h
      have hs : step Call.init s = s := by rw [step, init_ready s h]
      rw [List.replicate_succ, execList_cons, hs, ih s h]

theorem execList_one (c : Call) (s : CritState) : execList [c] s = step c s := rfl

/-- A full cycle of `2 ^ 32` consecutive Enter calls from a ready state with
nesting 0: the counter wraps back to 0 while the lock object has gained one
outstanding acquisition which is never released. -/
theorem enters_wrap_cycle (s : CritState)
    (h : s.criticalSectionInitialized = true)
    (h0 : s.criticalSectionNesting = 0) :
    execList (List.replicate UINT32_MOD Call.enter) s =
      { s with criticalSectionNesting := 0, lockHeld := s.lockHeld + 1,
               acquireCount := s.acquireCount + 1 } := by
  have hM1 : UINT32_MOD = 1 + (UINT32_MOD - 2 + 1) := by decide
  rw [hM1, List.replicate_add, List.replicate_add, execList_append,
    execList_append]
  simp only [List.replicate_one, execList_one, step]
  rw [enter_zero s h h0]
  rw [enters_add (UINT32_MOD - 2) _ (by exact h) (Nat.le_refl 1)
    (by show 1 + (UINT32_MOD - 2) < UINT32_MOD; decide)]
  rw [enter_pos _ (by exact h) (by show 0 < 1 + (UINT32_MOD - 2); decide)]
  have hz : (1 + (UINT32_MOD - 2) + 1) % UINT32_MOD = 0 := by decide
  simp [hz]

theorem wrap_ready :
    execList (List.replicate UINT32_MOD Call.enter) readyState =
      { criticalSectionInitialized := true, criticalSectionNesting := 0,
        lockConstructed := true, lockHeld := 1, acquireCount := 1,
        releaseCount := 0, constructCount := 1, destroyCount := 0 } := by
  rw [enters_wrap_cycle readyState (by decide) (by decide)]
  decide

/-! Invariant preservation. -/

theorem inv_step (c : Call) (s : CritState) (hs : CritInv s) : CritInv (step c s) := by
  obtain ⟨h1, h2, h3⟩ := hs
  cases c <;>
    simp only [step, UtilCriticalSectionInit, UtilCriticalSectionTerminate,
      UtilCriticalSectionEnter, UtilCriticalSectionExit,
      InitializeCriticalSection, DeleteCriticalSection, EnterCriticalSection,
      LeaveCriticalSection, CritInv] <;>
    repeat' split
  all_goals simp_all
  all_goals omega

theorem inv_execList (l : List Call) : ∀ s : CritState,
    CritInv s → CritInv (execList l s) := by
  induction l with
  | nil => intro s hs; exact hs
  | cons c l ih => intro s hs; exact ih (step c s) (inv_step c s hs)

theorem inv_reachable (s : CritState) (hs : Reachable s) : CritInv s := by
  obtain ⟨l, rfl⟩ := hs
  exact inv_execList l initialState
    ⟨rfl, fun _ => rfl, fun h => absurd h (Nat.lt_irrefl 0)⟩

theorem fullinv_step (c : Call) (s : CritState) (hs : FullInv s)
    (hw : c = Call.enter → s.criticalSectionNesting + 1 < UINT32_MOD) :
    FullInv (step c s) := by
  obtain ⟨h1, h2, h3⟩ := hs
  have hM : UINT32_MOD = 4294967296 := by decide
  cases c <;>
    simp only [step, UtilCriticalSectionInit, UtilCriticalSectionTerminate,
      UtilCriticalSectionEnter, UtilCriticalSectionExit,
      InitializeCriticalSection, DeleteCriticalSection, EnterCriticalSection,
      LeaveCriticalSection, FullInv] <;>
    repeat' split
  all_goals simp_all [Nat.pos_iff_ne_zero]
  all_goals omega

theorem fullinv_execList (l : List Call) : ∀ s : CritState,
    FullInv s → noWrapFrom s l = true → FullInv (execList l s) := by
  induction l with
  | nil => intro s hs _; exact hs
  | cons c l ih =>
      intro s hs hw
      simp only [noWrapFrom, Bool.and_eq_true, Bool.or_eq_true, bne_iff_ne,
        ne_eq, decide_eq_true_eq] at hw
      refine ih (step c s) (fullinv_step c s hs ?_) hw.2
      intro hc
      rcases hw.1 with h | h
      · exact absurd hc h
      · exact h

theorem one_mod_uint32 : 1 % UINT32_MOD = 1 := by decide

/-! The claims. -/

/-- Claim C2: when the module is initialized, Enter acquires the
underlying OS lock if and only if the nesting counter is currently 0, and
increments the `uint32_t` nesting counter by exactly one (the C increment,
i.e. modulo `2 ^ 32`; below `2 ^ 32 - 1` this is the plain successor); when
nesting was already positive the OS lock is not re-acquired. -/
theorem claim_C2_enter_acquire_iff_nesting_zero (s : CritState)
    (h : s.criticalSectionInitialized = true) :
    ((UtilCriticalSectionEnter s).acquireCount = s.acquireCount + 1 ↔
      s.criticalSectionNesting = 0) ∧
    (UtilCriticalSectionEnter s).criticalSectionNesting =
      (s.criticalSectionNesting + 1) % UINT32_MOD ∧
    (s.criticalSectionNesting + 1 < UINT32_MOD →
      (UtilCriticalSectionEnter s).criticalSectionNesting =
        s.criticalSectionNesting + 1) ∧
    (0 < s.criticalSectionNesting →
      (UtilCriticalSectionEnter s).acquireCount = s.acquireCount ∧
      (UtilCriticalSectionEnter s).lockHeld = s.lockHeld) := by
  by_cases h0 : s.criticalSectionNesting = 0
  · rw [enter_zero s h h0]
    refine ⟨?_, ?_, ?_, ?_⟩
    · show s.acquireCount + 1 = s.acquireCount + 1 ↔ s.criticalSectionNesting = 0
      simp [h0]
    · show 1 = (s.criticalSectionNesting + 1) % UINT32_MOD
      rw [h0, Nat.zero_add, one_mod_uint32]
    · intro _
      show 1 = s.criticalSectionNesting + 1
      rw [h0]
    · intro hp
      exact absurd h0 (by omega)
  · rw [enter_pos s h (Nat.pos_of_ne_zero h0)]
    refine ⟨?_, rfl, ?_, fun _ => ⟨rfl, rfl⟩⟩
    · show s.acquireCount = s.acquireCount + 1 ↔ s.criticalSectionNesting = 0
      omega
    · intro hlt
      show (s.criticalSectionNesting + 1) % UINT32_MOD =
        s.criticalSectionNesting + 1
      exact Nat.mod_eq_of_lt hlt

theorem claim_C2_enter_acquire_iff_nesting_zero_witness :
    readyState.criticalSectionInitialized = true ∧
    ((UtilCriticalSectionEnter readyState).acquireCount =
        readyState.acquireCount + 1 ↔
      readyState.criticalSectionNesting = 0) ∧
    (UtilCriticalSectionEnter readyState).criticalSectionNesting =
      (readyState.criticalSectionNesting + 1) % UINT32_MOD :=
  ⟨rfl, (claim_C2_enter_acquire_iff_nesting_zero readyState rfl).1,
    (claim_C2_enter_acquire_iff_nesting_zero readyState rfl).2.1⟩

/-- Claim C5: Terminate is idempotent: on a non-initialized state it is a
complete no-op (in particular no destroy is invoked, since the state, with
its `destroyCount` field, is unchanged); on an initialized state with
nesting 0 it destroys the OS lock, resets nesting to 0, and clears the
flag, returning to an uninitialized state. -/
theorem claim_C5_terminate_idempotent (s : CritState) :
    (s.criticalSectionInitialized = false →
      UtilCriticalSectionTerminate s = s) ∧
    (s.criticalSectionInitialized = true → s.criticalSectionNesting = 0 →
      UtilCriticalSectionTerminate s =
        { s with criticalSectionInitialized := false,
                 criticalSectionNesting := 0, lockConstructed := false,
                 destroyCount := s.destroyCount + 1 }) :=
  ⟨fun h => term_not_ready s h, fun h _ => term_ready s h⟩

theorem claim_C5_terminate_idempotent_witness :
    initialState.criticalSectionInitialized = false ∧
    UtilCriticalSectionTerminate initialState = initialState ∧
    readyState.criticalSectionInitialized = true ∧
    readyState.criticalSectionNesting = 0 ∧
    UtilCriticalSectionTerminate readyState =
      { readyState with
          criticalSectionInitialized := false,
          criticalSectionNesting := 0, lockConstructed := false,
          destroyCount := readyState.destroyCount + 1 } :=
  ⟨rfl, (claim_C5_terminate_idempotent initialState).1 rfl, rfl, rfl,
    (claim_C5_terminate_idempotent readyState).2 rfl rfl⟩

/-- Claim C6: in an initialized state with nesting 0, Exit is a complete
no-op: the state (hence the counter, which does not underflow, and the
`releaseCount`, so no OS release is invoked) is unchanged. -/
theorem claim_C6_exit_at_nesting_zero_noop (s : CritState)
    (h : s.criticalSectionInitialized = true)
    (h0 : s.criticalSectionNesting = 0) :
    UtilCriticalSectionExit s = s :=
  exit_zero s h h0

theorem claim_C6_exit_at_nesting_zero_noop_witness :
    readyState.criticalSectionInitialized = true ∧
    readyState.criticalSectionNesting = 0 ∧
    UtilCriticalSectionExit readyState = readyState :=
  ⟨rfl, rfl, claim_C6_exit_at_nesting_zero_noop readyState rfl rfl⟩

/-- Claim C7: on a non-initialized state, Enter and Exit are complete
no-ops in release builds (the assert is compiled away): no field changes,
and no OS lock operation is invoked (all four event counters are part of
the unchanged state). -/
theorem claim_C7_enter_exit_unready_noop (s : CritState)
    (h : s.criticalSectionInitialized = false) :
    UtilCriticalSectionEnter s = s ∧ UtilCriticalSectionExit s = s :=
  ⟨enter_not_ready s h, exit_not_ready s h⟩

theorem claim_C7_enter_exit_unready_noop_witness :
    initialState.criticalSectionInitialized = false ∧
    UtilCriticalSectionEnter initialState = initialState ∧
    UtilCriticalSectionExit initialState = initialState :=
  ⟨rfl, (claim_C7_enter_exit_unready_noop initialState rfl).1,
    (claim_C7_enter_exit_unready_noop initialState rfl).2⟩

/-- Claim C8: for Init; Init; Terminate; Terminate from the initial state
(two modules each doing startup and shutdown), the OS lock construct
operation runs exactly once and the destroy operation exactly once. -/
theorem claim_C8_double_lifecycle_once :
    (execList [Call.init, Call.init, Call.term, Call.term]
        initialState).constructCount = 1 ∧
    (execList [Call.init, Call.init, Call.term, Call.term]
        initialState).destroyCount = 1 := by
  decide

/-- Claim C9: Terminate on any initialized state, including every state
with positive nesting, clears the flag, resets nesting to 0 and destroys
the OS lock, without invoking the OS release operation (the
`releaseCount` is unchanged, and the result does not depend on the
nesting counter). -/
theorem claim_C9_terminate_ignores_nesting (s : CritState)
    (h : s.criticalSectionInitialized = true) :
    UtilCriticalSectionTerminate s =
      { s with criticalSectionInitialized := false,
               criticalSectionNesting := 0, lockConstructed := false,
               destroyCount := s.destroyCount + 1 } ∧
    (UtilCriticalSectionTerminate s).releaseCount = s.releaseCount ∧
    (UtilCriticalSectionTerminate s).destroyCount = s.destroyCount + 1 := by
  refine ⟨term_ready s h, ?_, ?_⟩ <;> rw [term_ready s h]

theorem claim_C9_terminate_ignores_nesting_witness :
    heldState.criticalSectionInitialized = true ∧
    0 < heldState.criticalSectionNesting ∧
    UtilCriticalSectionTerminate heldState =
      { heldState with
          criticalSectionInitialized := false,
          criticalSectionNesting := 0, lockConstructed := false,
          destroyCount := heldState.destroyCount + 1 } ∧
    (UtilCriticalSectionTerminate heldState).releaseCount =
      heldState.releaseCount :=
  ⟨by decide, by decide, (claim_C9_terminate_ignores_nesting heldState (by decide)).1,
    (claim_C9_terminate_ignores_nesting heldState (by decide)).2.1⟩

theorem critInv_initial : CritInv initialState :=
  ⟨rfl, fun _ => rfl, fun h => absurd h (Nat.lt_irrefl 0)⟩

theorem fullInv_initial : FullInv initialState :=
  ⟨rfl, fun _ => rfl, fun hh => Bool.noConfusion hh⟩

theorem bool_eq_false {b : Bool} (h : ¬ b = true) : b = false := by
  cases b
  · rfl
  · exact absurd rfl h

/-- Claim C4: Init is idempotent: for every N ≥ 1, N consecutive Init
calls from the initial state produce exactly the state of a single Init
call, and that state has nesting 0, the initialized flag set, the OS lock
unheld, and the lock constructed exactly once. -/
theorem claim_C4_init_idempotent (N : Nat) (h : 1 ≤ N) :
    execList (List.replicate N Call.init) initialState =
      execList [Call.init] initialState ∧
    readyState.criticalSectionNesting = 0 ∧
    readyState.criticalSectionInitialized = true ∧
    readyState.lockHeld = 0 ∧
    readyState.constructCount = 1 := by
  refine ⟨?_, by decide, by decide, by decide, by decide⟩
  obtain ⟨M, rfl⟩ : ∃ M, N = M + 1 := ⟨N - 1, by omega⟩
  rw [List.replicate_succ, execList_cons, execList_one]
  have h0 : step Call.init initialState = readyState := rfl
  rw [h0, inits_ready M readyState (by decide)]

theorem claim_C4_init_idempotent_witness :
    1 ≤ 3 ∧
    execList (List.replicate 3 Call.init) initialState =
      execList [Call.init] initialState ∧
    readyState.criticalSectionNesting = 0 :=
  ⟨by decide, (claim_C4_init_idempotent 3 (by decide)).1,
    (claim_C4_init_idempotent 3 (by decide)).2.1⟩

/-- Claim C10: the nesting counter is a `uint32_t` incremented with no
overflow guard: after k consecutive Enter calls from the ready state the
counter equals k modulo `2 ^ 32`; after exactly `2 ^ 32` Enter calls it
has wrapped to 0 while the lock is still held, and the next Enter invokes
the OS acquire operation again, giving a second outstanding
acquisition. -/
theorem claim_C10_nesting_counter_wraps :
    (∀ k : Nat,
      (execList (List.replicate k Call.enter)
          readyState).criticalSectionNesting = k % UINT32_MOD) ∧
    (execList (List.replicate UINT32_MOD Call.enter)
        readyState).criticalSectionNesting = 0 ∧
    1 ≤ (execList (List.replicate UINT32_MOD Call.enter)
        readyState).lockHeld ∧
    (step Call.enter (execList (List.replicate UINT32_MOD Call.enter)
        readyState)).acquireCount =
      (execList (List.replicate UINT32_MOD Call.enter)
          readyState).acquireCount + 1 ∧
    (step Call.enter (execList (List.replicate UINT32_MOD Call.enter)
        readyState)).lockHeld = 2 := by
  refine ⟨?_, ?_, ?_, ?_, ?_⟩
  · intro k
    have h0 : readyState.criticalSectionNesting = 0 := by decide
    rw [enters_mod k readyState (by decide) (by decide), h0, Nat.zero_add]
  all_goals rw [wrap_ready]
  all_goals decide

/-- Claim C3 (amended): in every reachable state, `initialized = false`
implies nesting 0 and an unconstructed lock, and positive nesting implies
the lock is constructed and held with at least one outstanding
acquisition; the count is exactly one provided the `uint32_t` nesting
counter never wrapped during the execution (every Enter happened at
nesting below `2 ^ 32 - 1`).  Without that proviso "exactly one" fails,
see the counterexample. -/
theorem claim_C3_reachable_invariant (l : List Call) :
    ((execList l initialState).criticalSectionInitialized = false →
      (execList l initialState).criticalSectionNesting = 0 ∧
      (execList l initialState).lockConstructed = false) ∧
    (0 < (execList l initialState).criticalSectionNesting →
      (execList l initialState).lockConstructed = true ∧
      1 ≤ (execList l initialState).lockHeld) ∧
    (noWrapFrom initialState l = true →
      0 < (execList l initialState).criticalSectionNesting →
      (execList l initialState).lockHeld = 1) := by
  obtain ⟨h1, h2, h3⟩ := inv_execList l initialState critInv_initial
  refine ⟨?_, ?_, ?_⟩
  · intro hf
    exact ⟨h2 hf, by rw [← h1, hf]⟩
  · intro hp
    have hi : (execList l initialState).criticalSectionInitialized = true := by
      by_contra hc
      have hfe := h2 (bool_eq_false hc)
      omega
    exact ⟨by rw [← h1, hi], h3 hp⟩
  · intro hw hp
    obtain ⟨g1, g2, g3⟩ := fullinv_execList l initialState fullInv_initial hw
    have hi : (execList l initialState).criticalSectionInitialized = true := by
      by_contra hc
      have hfe := g2 (bool_eq_false hc)
      omega
    have hc : (execList l initialState).lockConstructed = true := by
      rw [← g1]; exact hi
    rw [g3 hc, if_neg (by omega)]

theorem claim_C3_reachable_invariant_witness :
    noWrapFrom initialState [Call.init, Call.enter] = true ∧
    0 < (execList [Call.init, Call.enter]
        initialState).criticalSectionNesting ∧
    (execList [Call.init, Call.enter] initialState).lockHeld = 1 ∧
    (execList [Call.init, Call.enter] initialState).lockConstructed = true :=
  ⟨by decide, by decide,
    (claim_C3_reachable_invariant [Call.init, Call.enter]).2.2
      (by decide) (by decide),
    ((claim_C3_reachable_invariant [Call.init, Call.enter]).2.1
      (by decide)).1⟩

/-- Claim C3 counterexample: the state reached by Init followed by
`2 ^ 32 + 1` Enter calls is reachable, has positive nesting, and carries
two outstanding acquisitions on the OS lock, not exactly one. -/
theorem claim_C3_reachable_invariant_counterexample :
    Reachable badC3State ∧ 0 < badC3State.criticalSectionNesting ∧
    badC3State.lockHeld = 2 := by
  refine ⟨⟨Call.init ::
    (List.replicate UINT32_MOD Call.enter ++ [Call.enter]), ?_⟩,
    by decide, by decide⟩
  rw [execList_cons]
  have h0 : step Call.init initialState = readyState := rfl
  rw [h0, execList_append, wrap_ready, execList_one]
  decide

/-- Claim C1 (amended: for every N with 1 ≤ N < `2 ^ 32`): N Enter calls
followed by N Exit calls from the ready state acquire the OS lock exactly
once and release it exactly once, ending with nesting 0 and the lock
unheld.  At N = `2 ^ 32` the `uint32_t` counter wraps and the property
fails, see the counterexample. -/
theorem claim_C1_balanced_round_trip (N : Nat) (h1 : 1 ≤ N)
    (h2 : N < UINT32_MOD) :
    execList (List.replicate N Call.enter ++ List.replicate N Call.exit)
        readyState =
      { criticalSectionInitialized := true, criticalSectionNesting := 0,
        lockConstructed := true, lockHeld := 0, acquireCount := 1,
        releaseCount := 1, constructCount := 1, destroyCount := 0 } := by
  obtain ⟨M, rfl⟩ : ∃ M, N = M + 1 := ⟨N - 1, by omega⟩
  rw [execList_append]
  have hEnt : execList (List.replicate (M + 1) Call.enter) readyState =
      { criticalSectionInitialized := true, criticalSectionNesting := M + 1,
        lockConstructed := true, lockHeld := 1, acquireCount := 1,
        releaseCount := 0, constructCount := 1, destroyCount := 0 } := by
    rw [List.replicate_succ, execList_cons]
    have hs1 : step Call.enter readyState =
        { criticalSectionInitialized := true, criticalSectionNesting := 1,
          lockConstructed := true, lockHeld := 1, acquireCount := 1,
          releaseCount := 0, constructCount := 1, destroyCount := 0 } := by
      decide
    rw [hs1, enters_add M _ rfl (Nat.le_refl 1)
      (by show 1 + M < UINT32_MOD; omega), Nat.add_comm 1 M]
  rw [hEnt, List.replicate_succ', execList_append,
    exits_sub M _ rfl (Nat.lt_succ_self M), Nat.add_sub_cancel_left,
    execList_one]
  show UtilCriticalSectionExit _ = _
  rw [exit_one _ rfl rfl]
  rfl

theorem claim_C1_balanced_round_trip_witness :
    1 ≤ 2 ∧ 2 < UINT32_MOD ∧
    execList (List.replicate 2 Call.enter ++ List.replicate 2 Call.exit)
        readyState =
      { criticalSectionInitialized := true, criticalSectionNesting := 0,
        lockConstructed := true, lockHeld := 0, acquireCount := 1,
        releaseCount := 1, constructCount := 1, destroyCount := 0 } :=
  ⟨by decide, by decide,
    claim_C1_balanced_round_trip 2 (by decide) (by decide)⟩

/-- Claim C1 counterexample at N = `2 ^ 32` (which satisfies N ≥ 1): after
`2 ^ 32` Enter calls the counter has wrapped to 0, so all `2 ^ 32` Exit
calls are no-ops: the OS lock is never released (releaseCount 0, not 1)
and is still held at the end. -/
theorem claim_C1_balanced_round_trip_counterexample :
    1 ≤ UINT32_MOD ∧
    (execList (List.replicate UINT32_MOD Call.enter ++
        List.replicate UINT32_MOD Call.exit) readyState).releaseCount = 0 ∧
    (execList (List.replicate UINT32_MOD Call.enter ++
        List.replicate UINT32_MOD Call.exit) readyState).lockHeld = 1 := by
  refine ⟨by decide, ?_, ?_⟩ <;>
    rw [execList_append, wrap_ready, exits_zero _ _ rfl]
